import Mathlib

/-!
Verification of the burn controller of the demo workload generator
(`src/main.py`): the `/burn` endpoint, the shared `burn_level` cell and
the `cpu_burner` background loop.
-/

namespace KubemindDemo

/-- A value attached to a structured log field (`log(level, msg, **fields)`
in `src/main.py` stores strings and integers for the burn endpoint). -/
inductive FieldVal
  | str (s : String)
  | int (n : Int)
deriving DecidableEq, Repr

/-- One structured log record as emitted by `log` in `src/main.py`
(lines 21-30): a severity, a message, and extra fields.  The `app` and
`ts` fields are constant resp. wall-clock and are not modelled. -/
structure LogRecord where
  level : String
  msg : String
  fields : List (String × FieldVal)
deriving DecidableEq, Repr

/-- The state touched by the `/burn` endpoint: the shared global
`burn_level` (`src/main.py` line 130, initialised to 0) and the list of
log records emitted so far. -/
structure BurnState where
  burn_level : Int
  logs : List LogRecord
deriving DecidableEq, Repr

/-- The JSON body returned by the `/burn` handler: `{"burn_level": ...}`. -/
structure BurnResponse where
  burn_level : Int
deriving DecidableEq, Repr

/-- The log record emitted by the `/burn` handler (`src/main.py` line 159):
`log("warning", "CPU burn updated", endpoint="/burn", level=level)`. -/
def burnLogRecord (n : Int) : LogRecord :=
  ⟨"warning", "CPU burn updated",
    [("endpoint", FieldVal.str "/burn"), ("level", FieldVal.int n)]⟩

/-- The body of the `/burn` handler (`src/main.py` lines 154-160), as it
executes once invoked: assign the global `burn_level` under the lock,
emit one warning log, and return `{"burn_level": burn_level}` reading the
global back.  The handler body itself performs no range validation. -/
def burn (level : Int) (s : BurnState) : BurnState × BurnResponse :=
  let s1 : BurnState := ⟨level, s.logs⟩
  let s2 : BurnState := ⟨s1.burn_level, s1.logs ++ [burnLogRecord level]⟩
  (s2, ⟨s2.burn_level⟩)

/-- The default of the `level` query parameter: `Query(0, ge=0, le=10)`
(`src/main.py` line 155). -/
def burnDefaultLevel : Int := 0

/-- The single error kind of the burn controller: the requested level is
outside [0,10].  In the code this is FastAPI's rejection of a query
parameter violating `ge=0, le=10` before the handler runs. -/
inductive BurnError
  | invalidLevel
deriving DecidableEq, Repr

/-- `SetLevel(n)`: the `/burn` endpoint including the framework's query
validation (`Query(0, ge=0, le=10)`, `src/main.py` line 155).  A request
with `n` outside [0,10] is rejected before the handler body runs, so the
state is untouched; otherwise the handler body `burn` executes. -/
def SetLevel (n : Int) (s : BurnState) : BurnState × Except BurnError BurnResponse :=
  if 0 ≤ n ∧ n ≤ 10 then
    let r := burn n s
    (r.1, Except.ok r.2)
  else
    (s, Except.error BurnError.invalidLevel)

/-- `GetLevel()`: a read of the stored burn level (the locked read
`lvl = burn_level`, `src/main.py` lines 136-137).  Pure, no side effects. -/
def GetLevel (s : BurnState) : Int :=
  s.burn_level

/-- The state owned by the `cpu_burner` loop: the two Prometheus gauges
(`demo_cpu_burn_level` and `demo_random_gauge`, both initialised to 0 by
the client library) and the position in the stream of random samples
consumed by `random.random()`. -/
structure LoopState where
  cpuBurnGauge : ℚ
  randomGauge : ℚ
  rngIdx : Nat
deriving DecidableEq, Repr

/-- The observable timing actions of one `cpu_burner` iteration:
`time.sleep` of a number of milliseconds, or a busy spin (the
`while time.time() < end: pass` loop) lasting a number of milliseconds. -/
inductive LoopAction
  | sleepMs (ms : Nat)
  | spinMs (ms : Int)
deriving DecidableEq, Repr

/-- One iteration of the `cpu_burner` loop body (`src/main.py` lines
135-150), given the level `lvl` read under the lock and a stream `rng`
of samples modelling successive `random.random()` results: set the
`demo_cpu_burn_level` gauge to `lvl`, set `demo_random_gauge` to a fresh
sample, then either sleep 200 ms (when `lvl <= 0`, via `continue`) or
busy-spin for `0.02 * lvl` seconds = `20 * lvl` ms and sleep 50 ms. -/
def cpuBurnerIter (rng : Nat → ℚ) (lvl : Int) (ls : LoopState) :
    LoopState × List LoopAction :=
  let ls1 : LoopState := ⟨(lvl : ℚ), rng ls.rngIdx, ls.rngIdx + 1⟩
  if lvl ≤ 0 then
    (ls1, [LoopAction.sleepMs 200])
  else
    (ls1, [LoopAction.spinMs (20 * lvl), LoopAction.sleepMs 50])

/-- The combined process state: the shared burn cell plus the loop's
gauge state. -/
structure FullState where
  bs : BurnState
  ls : LoopState
deriving DecidableEq, Repr

/-- The operations that touch the shared state during the process
lifetime: a `/burn` request (`SetLevel`), a read (`GetLevel`), or one
iteration of the `cpu_burner` loop. -/
inductive SysOp
  | setOp (n : Int)
  | getOp
  | iterOp
deriving DecidableEq, Repr

/-- Process start state: `burn_level = 0` (`src/main.py` line 130), no
logs, gauges at their library default 0, random stream at position 0. -/
def initFull : FullState :=
  ⟨⟨0, []⟩, ⟨0, 0, 0⟩⟩

/-- Effect of one operation on the full state.  `GetLevel` has no side
effect; a loop iteration reads `burn_level` but writes only the loop's
own gauge state (`cpu_burner` never assigns `burn_level`). -/
def applySysOp (rng : Nat → ℚ) (s : FullState) : SysOp → FullState
  | SysOp.setOp n => ⟨(SetLevel n s.bs).1, s.ls⟩
  | SysOp.getOp => s
  | SysOp.iterOp => ⟨s.bs, (cpuBurnerIter rng s.bs.burn_level s.ls).1⟩

/-- The state after a sequence of operations from process start. -/
def runOps (rng : Nat → ℚ) (ops : List SysOp) : FullState :=
  ops.foldl (applySysOp rng) initFull

/-- Program counter of the `cpu_burner` loop body, at the granularity of
its interaction with the lock (`src/main.py` lines 135-150): acquire the
lock (`with burn_lock:`), read `burn_level` into `lvl`, release the
lock, set the two gauges, branch on `lvl <= 0`, then either the 200 ms
idle sleep or the busy-spin window followed by the 50 ms sleep. -/
inductive BurnerPC
  | acquire
  | readLvl
  | release
  | gauges
  | branch
  | idleSleep
  | spinning
  | afterSpinSleep
deriving DecidableEq, Repr

/-- A configuration of the loop thread together with the shared cell:
the loop's program counter, whether the `burn_lock` mutex is held, the
loop's local copy `lvl`, and the shared `burn_level`. -/
structure BurnerConfig where
  pc : BurnerPC
  lockHeld : Bool
  lvl : Int
  shared : Int
deriving DecidableEq, Repr

/-- Small-step relation of the loop thread interleaved with `/burn`
writers.  The `with burn_lock:` block covers exactly the read
`lvl = burn_level`; a writer (`SetLevel` from a request thread) takes
the lock, stores, and releases in one step, so it fires only while the
lock is free. -/
inductive BurnerStep : BurnerConfig → BurnerConfig → Prop
  | acquireLock (l sh : Int) :
      BurnerStep ⟨BurnerPC.acquire, false, l, sh⟩ ⟨BurnerPC.readLvl, true, l, sh⟩
  | readLevel (l sh : Int) :
      BurnerStep ⟨BurnerPC.readLvl, true, l, sh⟩ ⟨BurnerPC.release, true, sh, sh⟩
  | releaseLock (l sh : Int) :
      BurnerStep ⟨BurnerPC.release, true, l, sh⟩ ⟨BurnerPC.gauges, false, l, sh⟩
  | setGauges (l sh : Int) :
      BurnerStep ⟨BurnerPC.gauges, false, l, sh⟩ ⟨BurnerPC.branch, false, l, sh⟩
  | branchIdle (l sh : Int) : l ≤ 0 →
      BurnerStep ⟨BurnerPC.branch, false, l, sh⟩ ⟨BurnerPC.idleSleep, false, l, sh⟩
  | branchSpin (l sh : Int) : 0 < l →
      BurnerStep ⟨BurnerPC.branch, false, l, sh⟩ ⟨BurnerPC.spinning, false, l, sh⟩
  | idleWake (l sh : Int) :
      BurnerStep ⟨BurnerPC.idleSleep, false, l, sh⟩ ⟨BurnerPC.acquire, false, l, sh⟩
  | spinStep (l sh : Int) :
      BurnerStep ⟨BurnerPC.spinning, false, l, sh⟩ ⟨BurnerPC.spinning, false, l, sh⟩
  | spinDone (l sh : Int) :
      BurnerStep ⟨BurnerPC.spinning, false, l, sh⟩ ⟨BurnerPC.afterSpinSleep, false, l, sh⟩
  | sleepWake (l sh : Int) :
      BurnerStep ⟨BurnerPC.afterSpinSleep, false, l, sh⟩ ⟨BurnerPC.acquire, false, l, sh⟩
  | writerSet (p : BurnerPC) (l sh n : Int) :
      BurnerStep ⟨p, false, l, sh⟩ ⟨p, false, l, n⟩

/-- The loop thread starts at the top of `while True` with the lock
free and `burn_level = 0`. -/
def burnerInit : BurnerConfig :=
  ⟨BurnerPC.acquire, false, 0, 0⟩

/-- Configurations reachable from the start of the loop. -/
inductive BurnerReachable : BurnerConfig → Prop
  | init : BurnerReachable burnerInit
  | step (s s' : BurnerConfig) : BurnerReachable s → BurnerStep s s' → BurnerReachable s'

/-- Outcome of one `cpu_burner` iteration when collaborator calls may
raise: either the loop continues (`next`) with the new gauge state, the
timing actions and any log records emitted during the iteration, or an
exception propagates out of the loop body (`raised`). -/
inductive IterOutcome
  | next (ls : LoopState) (acts : List LoopAction) (emitted : List LogRecord)
  | raised (e : String) (emitted : List LogRecord)
deriving DecidableEq, Repr

/-- One iteration of the `cpu_burner` body (`src/main.py` lines 135-150)
with fallible gauge collaborators: `cpuSet` models `CPU_BURN.set`,
`randSet` models `RANDOM_GAUGE.set`, and a `some e` result is a raised
exception.  The body contains no try/except and no `log` call, so a
raise propagates straight out of the `while True` loop and no log record
is emitted on any path. -/
def cpuBurnerIterF (cpuSet randSet : ℚ → Option String) (rng : Nat → ℚ)
    (lvl : Int) (ls : LoopState) : IterOutcome :=
  match cpuSet (lvl : ℚ) with
  | some e => IterOutcome.raised e []
  | none =>
    match randSet (rng ls.rngIdx) with
    | some e => IterOutcome.raised e []
    | none =>
      let ls1 : LoopState := ⟨(lvl : ℚ), rng ls.rngIdx, ls.rngIdx + 1⟩
      if lvl ≤ 0 then
        IterOutcome.next ls1 [LoopAction.sleepMs 200] []
      else
        IterOutcome.next ls1 [LoopAction.spinMs (20 * lvl), LoopAction.sleepMs 50] []

end KubemindDemo

namespace KubemindDemo

/-- C1 helper: `SetLevel` on a valid level runs the handler body. -/
theorem SetLevel_of_valid (n : Int) (s : BurnState) (h0 : 0 ≤ n) (h10 : n ≤ 10) :
    SetLevel n s = ((burn n s).1, Except.ok (burn n s).2) := by
  unfold SetLevel
  rw [if_pos ⟨h0, h10⟩]

/-- **C1.** For every integer n with 0 ≤ n ≤ 10, `SetLevel(n)` succeeds
(returns `ok` with response `{"burn_level": n}`), and a subsequent
`GetLevel()` on the resulting state returns exactly n. -/
theorem setLevel_getLevel_roundtrip (n : Int) (s : BurnState)
    (h0 : 0 ≤ n) (h10 : n ≤ 10) :
    (SetLevel n s).2 = Except.ok ⟨n⟩ ∧ GetLevel (SetLevel n s).1 = n := by
  rw [SetLevel_of_valid n s h0 h10]
  unfold burn GetLevel
  exact ⟨rfl, rfl⟩

/-- Witness for C1: `SetLevel 7` succeeds from the initial state and
`GetLevel` then returns 7. -/
theorem setLevel_getLevel_roundtrip_witness :
    (SetLevel 7 ⟨0, []⟩).2 = Except.ok ⟨7⟩ ∧ GetLevel (SetLevel 7 ⟨0, []⟩).1 = 7 :=
  setLevel_getLevel_roundtrip 7 ⟨0, []⟩ (by norm_num) (by norm_num)

/-- **C2.** For every integer n outside [0,10], `SetLevel(n)` fails with
the `InvalidLevel` error, the state is untouched, and in particular the
previously stored burn level is unchanged after the failed call. -/
theorem setLevel_invalid_rejected (n : Int) (s : BurnState)
    (h : ¬ (0 ≤ n ∧ n ≤ 10)) :
    (SetLevel n s).2 = Except.error BurnError.invalidLevel ∧
    (SetLevel n s).1 = s ∧
    GetLevel (SetLevel n s).1 = GetLevel s := by
  unfold SetLevel
  rw [if_neg h]
  exact ⟨rfl, rfl, rfl⟩

/-- Witness for C2: `SetLevel 11` (and `SetLevel (-1)`) fail with
`InvalidLevel` and leave the stored level 3 unchanged. -/
theorem setLevel_invalid_rejected_witness :
    (SetLevel 11 ⟨3, []⟩).2 = Except.error BurnError.invalidLevel ∧
    (SetLevel 11 ⟨3, []⟩).1 = ⟨3, []⟩ ∧
    GetLevel (SetLevel 11 ⟨3, []⟩).1 = GetLevel ⟨3, []⟩ :=
  setLevel_invalid_rejected 11 ⟨3, []⟩ (by norm_num)

/-- **C4.** On every successful call `SetLevel(n)`, exactly one log
record is appended, at warning severity, with the fixed message
"CPU burn updated" and a `level` field holding the new level n, and the
call returns the new level n. -/
theorem setLevel_logs_once (n : Int) (s : BurnState) (h0 : 0 ≤ n) (h10 : n ≤ 10) :
    (SetLevel n s).1.logs =
      s.logs ++ [⟨"warning", "CPU burn updated",
        [("endpoint", FieldVal.str "/burn"), ("level", FieldVal.int n)]⟩] ∧
    (SetLevel n s).2 = Except.ok ⟨n⟩ := by
  rw [SetLevel_of_valid n s h0 h10]
  unfold burn burnLogRecord
  exact ⟨rfl, rfl⟩

/-- Witness for C4: `SetLevel 4` from the empty-log initial state emits
exactly one warning record "CPU burn updated" with level 4 and returns 4. -/
theorem setLevel_logs_once_witness :
    (SetLevel 4 ⟨0, []⟩).1.logs =
      [] ++ [⟨"warning", "CPU burn updated",
        [("endpoint", FieldVal.str "/burn"), ("level", FieldVal.int 4)]⟩] ∧
    (SetLevel 4 ⟨0, []⟩).2 = Except.ok ⟨4⟩ :=
  setLevel_logs_once 4 ⟨0, []⟩ (by norm_num) (by norm_num)

/-- **C9.** The handler body `burn` performs no range validation: for
every integer n (also outside [0,10]) it stores n into the shared burn
level without any error and returns `{"burn_level": n}`. -/
theorem burn_body_no_validation (n : Int) (s : BurnState) :
    (burn n s).1.burn_level = n ∧ (burn n s).2 = ⟨n⟩ := by
  unfold burn
  exact ⟨rfl, rfl⟩

/-- Witness for C9: calling the handler body directly with the
out-of-range level 1000 stores 1000 and returns `{"burn_level": 1000}`. -/
theorem burn_body_no_validation_witness :
    (burn 1000 ⟨0, []⟩).1.burn_level = 1000 ∧ (burn 1000 ⟨0, []⟩).2 = ⟨1000⟩ :=
  burn_body_no_validation 1000 ⟨0, []⟩

/-- **C10.** The `level` parameter defaults to 0, so the handler invoked
with the default argument stores 0 and returns `{"burn_level": 0}`:
calling the endpoint with no level argument resets the burn level. -/
theorem burn_default_resets (s : BurnState) :
    (burn burnDefaultLevel s).1.burn_level = 0 ∧
    (burn burnDefaultLevel s).2 = ⟨0⟩ := by
  unfold burn burnDefaultLevel
  exact ⟨rfl, rfl⟩

/-- Witness for C10: from a state with stored level 9, the default call
resets the level to 0 and returns `{"burn_level": 0}`. -/
theorem burn_default_resets_witness :
    (burn burnDefaultLevel ⟨9, []⟩).1.burn_level = 0 ∧
    (burn burnDefaultLevel ⟨9, []⟩).2 = ⟨0⟩ :=
  burn_default_resets ⟨9, []⟩

/-- **C5.** Every iteration of the loop, regardless of the level read
(including 0), sets the `demo_cpu_burn_level` gauge to that level and
sets `demo_random_gauge` to a freshly generated random sample: the
sample at the current stream position, which lies in [0,1) whenever the
stream models `random.random()`, and the position advances by one. -/
theorem cpuBurnerIter_sets_gauges (rng : Nat → ℚ) (lvl : Int) (ls : LoopState)
    (hr : ∀ i, 0 ≤ rng i ∧ rng i < 1) :
    (cpuBurnerIter rng lvl ls).1.cpuBurnGauge = (lvl : ℚ) ∧
    (cpuBurnerIter rng lvl ls).1.randomGauge = rng ls.rngIdx ∧
    (0 ≤ (cpuBurnerIter rng lvl ls).1.randomGauge ∧
      (cpuBurnerIter rng lvl ls).1.randomGauge < 1) ∧
    (cpuBurnerIter rng lvl ls).1.rngIdx = ls.rngIdx + 1 := by
  unfold cpuBurnerIter
  by_cases h : lvl ≤ 0
  · rw [if_pos h]
    exact ⟨rfl, rfl, hr ls.rngIdx, rfl⟩
  · rw [if_neg h]
    exact ⟨rfl, rfl, hr ls.rngIdx, rfl⟩

/-- Witness for C5: at level 0 with a constant sample stream 1/2, the
iteration writes 0 to the burn gauge, 1/2 to the random gauge (a value
in [0,1)), and advances the stream position. -/
theorem cpuBurnerIter_sets_gauges_witness :
    (cpuBurnerIter (fun _ => (1 : ℚ)/2) 0 ⟨0, 0, 0⟩).1.cpuBurnGauge = ((0 : Int) : ℚ) ∧
    (cpuBurnerIter (fun _ => (1 : ℚ)/2) 0 ⟨0, 0, 0⟩).1.randomGauge = (1 : ℚ)/2 ∧
    (0 ≤ (cpuBurnerIter (fun _ => (1 : ℚ)/2) 0 ⟨0, 0, 0⟩).1.randomGauge ∧
      (cpuBurnerIter (fun _ => (1 : ℚ)/2) 0 ⟨0, 0, 0⟩).1.randomGauge < 1) ∧
    (cpuBurnerIter (fun _ => (1 : ℚ)/2) 0 ⟨0, 0, 0⟩).1.rngIdx = 0 + 1 :=
  cpuBurnerIter_sets_gauges (fun _ => (1 : ℚ)/2) 0 ⟨0, 0, 0⟩
    (fun _ => by norm_num)

/-- **C6.** For a level in the reachable range [0,10]: when the level
read is 0 the iteration only sleeps 200 ms (no busy-spin work), and
otherwise it busy-spins for exactly 20 ms times the level and then
sleeps 50 ms before the next iteration. -/
theorem cpuBurnerIter_timing (rng : Nat → ℚ) (lvl : Int) (ls : LoopState)
    (h0 : 0 ≤ lvl) :
    (lvl = 0 → (cpuBurnerIter rng lvl ls).2 = [LoopAction.sleepMs 200]) ∧
    (lvl ≠ 0 → (cpuBurnerIter rng lvl ls).2 =
      [LoopAction.spinMs (20 * lvl), LoopAction.sleepMs 50]) := by
  unfold cpuBurnerIter
  constructor
  · intro hz
    rw [if_pos (le_of_eq hz)]
  · intro hnz
    have hpos : ¬ lvl ≤ 0 := by omega
    rw [if_neg hpos]

/-- Witness for C6: at level 5 the iteration spins 100 ms then sleeps
50 ms; the level-0 clause is vacuous there. -/
theorem cpuBurnerIter_timing_witness :
    ((5 : Int) = 0 → (cpuBurnerIter (fun _ => 0) 5 ⟨0, 0, 0⟩).2 = [LoopAction.sleepMs 200]) ∧
    ((5 : Int) ≠ 0 → (cpuBurnerIter (fun _ => 0) 5 ⟨0, 0, 0⟩).2 =
      [LoopAction.spinMs (20 * 5), LoopAction.sleepMs 50]) :=
  cpuBurnerIter_timing (fun _ => 0) 5 ⟨0, 0, 0⟩ (by norm_num)

/-- C3 helper: each operation preserves the range of the stored level. -/
theorem applySysOp_preserves_range (rng : Nat → ℚ) (s : FullState) (op : SysOp)
    (h : 0 ≤ s.bs.burn_level ∧ s.bs.burn_level ≤ 10) :
    0 ≤ (applySysOp rng s op).bs.burn_level ∧
    (applySysOp rng s op).bs.burn_level ≤ 10 := by
  cases op with
  | setOp n =>
    simp only [applySysOp, SetLevel]
    by_cases hv : 0 ≤ n ∧ n ≤ 10
    · rw [if_pos hv]
      exact hv
    · rw [if_neg hv]
      exact h
  | getOp => exact h
  | iterOp => exact h

/-- C3 helper: range preservation along any operation sequence. -/
theorem foldl_preserves_range (rng : Nat → ℚ) (ops : List SysOp) (s : FullState)
    (h : 0 ≤ s.bs.burn_level ∧ s.bs.burn_level ≤ 10) :
    0 ≤ (ops.foldl (applySysOp rng) s).bs.burn_level ∧
    (ops.foldl (applySysOp rng) s).bs.burn_level ≤ 10 := by
  induction ops generalizing s with
  | nil => exact h
  | cons op rest ih =>
    exact ih (applySysOp rng s op) (applySysOp_preserves_range rng s op h)

/-- **C3.** The stored burn level always satisfies 0 ≤ level ≤ 10: it is
0 at process start, and after any sequence of operations (`SetLevel`,
`GetLevel`, loop iterations) it is still within [0,10]. -/
theorem burn_level_always_in_range (rng : Nat → ℚ) (ops : List SysOp) :
    initFull.bs.burn_level = 0 ∧
    0 ≤ (runOps rng ops).bs.burn_level ∧
    (runOps rng ops).bs.burn_level ≤ 10 := by
  refine ⟨rfl, ?_⟩
  exact foldl_preserves_range rng ops initFull ⟨by decide, by decide⟩

/-- Witness for C3: after a set to 10, a failed set to 99, an iteration
and a read, the stored level is within [0,10]. -/
theorem burn_level_always_in_range_witness :
    initFull.bs.burn_level = 0 ∧
    0 ≤ (runOps (fun _ => 0)
      [SysOp.setOp 10, SysOp.setOp 99, SysOp.iterOp, SysOp.getOp]).bs.burn_level ∧
    (runOps (fun _ => 0)
      [SysOp.setOp 10, SysOp.setOp 99, SysOp.iterOp, SysOp.getOp]).bs.burn_level ≤ 10 :=
  burn_level_always_in_range (fun _ => 0)
    [SysOp.setOp 10, SysOp.setOp 99, SysOp.iterOp, SysOp.getOp]

/-- **C8.** In every reachable configuration of the loop's step relation,
the `burn_lock` is not held during the busy-spin window; the lock is held
only across the single read of the level (the two program points inside
the `with burn_lock:` block). -/
theorem burner_lock_free_while_spinning (s : BurnerConfig) (h : BurnerReachable s) :
    (s.pc = BurnerPC.spinning → s.lockHeld = false) ∧
    (s.lockHeld = true → s.pc = BurnerPC.readLvl ∨ s.pc = BurnerPC.release) := by
  induction h with
  | init => simp [burnerInit]
  | step s s' hr hs ih => cases hs <;> simp

/-- Witness for C8: a concrete reachable spinning configuration (a
writer stores 5, the loop reads it and enters the spin window) has the
lock released. -/
theorem burner_lock_free_while_spinning_witness :
    (⟨BurnerPC.spinning, false, 5, 5⟩ : BurnerConfig).lockHeld = false := by
  have h0 : BurnerReachable ⟨BurnerPC.acquire, false, 0, 5⟩ :=
    BurnerReachable.step _ _ BurnerReachable.init (BurnerStep.writerSet BurnerPC.acquire 0 0 5)
  have h1 : BurnerReachable ⟨BurnerPC.readLvl, true, 0, 5⟩ :=
    BurnerReachable.step _ _ h0 (BurnerStep.acquireLock 0 5)
  have h2 : BurnerReachable ⟨BurnerPC.release, true, 5, 5⟩ :=
    BurnerReachable.step _ _ h1 (BurnerStep.readLevel 0 5)
  have h3 : BurnerReachable ⟨BurnerPC.gauges, false, 5, 5⟩ :=
    BurnerReachable.step _ _ h2 (BurnerStep.releaseLock 5 5)
  have h4 : BurnerReachable ⟨BurnerPC.branch, false, 5, 5⟩ :=
    BurnerReachable.step _ _ h3 (BurnerStep.setGauges 5 5)
  have h5 : BurnerReachable ⟨BurnerPC.spinning, false, 5, 5⟩ :=
    BurnerReachable.step _ _ h4 (BurnerStep.branchSpin 5 5 (by norm_num))
  exact (burner_lock_free_while_spinning _ h5).1 rfl

/-- Counterexample to **C7**: the loop body has no try/except and no log
call, so when the `CPU_BURN.set` collaborator raises at level 3, the
iteration's outcome is a propagated exception with no log record
emitted — not a logged condition with the loop continuing. -/
theorem cpu_burner_swallows_nothing_cex :
    cpuBurnerIterF (fun _ => some "boom") (fun _ => none) (fun _ => 0) 3 ⟨0, 0, 0⟩ =
      IterOutcome.raised "boom" [] := by
  rfl

/-- **C7 (amended).** The loop body contains no internal error handling:
whenever a collaborator call inside one iteration raises, the exception
propagates out of the loop body with no log record emitted, terminating
the loop of the background daemon thread instead of continuing to the
next iteration. -/
theorem cpu_burner_exception_propagates (cpuSet randSet : ℚ → Option String)
    (rng : Nat → ℚ) (lvl : Int) (ls : LoopState) (e : String) :
    (cpuSet (lvl : ℚ) = some e →
      cpuBurnerIterF cpuSet randSet rng lvl ls = IterOutcome.raised e []) ∧
    (cpuSet (lvl : ℚ) = none → randSet (rng ls.rngIdx) = some e →
      cpuBurnerIterF cpuSet randSet rng lvl ls = IterOutcome.raised e []) := by
  constructor
  · intro h
    unfold cpuBurnerIterF
    rw [h]
  · intro h1 h2
    unfold cpuBurnerIterF
    rw [h1, h2]

/-- Witness for the amended C7: with a `RANDOM_GAUGE.set` collaborator
that raises, the iteration at level 2 propagates the exception unlogged. -/
theorem cpu_burner_exception_propagates_witness :
    cpuBurnerIterF (fun _ => none) (fun _ => some "down") (fun _ => 0) 2 ⟨0, 0, 0⟩ =
      IterOutcome.raised "down" [] :=
  (cpu_burner_exception_propagates (fun _ => none) (fun _ => some "down")
    (fun _ => 0) 2 ⟨0, 0, 0⟩ "down").2 rfl rfl

end KubemindDemo
